import Mathlib

/-!
# Agora buzzer backend — shallow embedding and verification

This file embeds the session core of the Agora 1v1 buzzer backend
(`backend/main.py`, `backend/models.py`) in Lean 4 and proves properties
of its buzzer state machine, rate limiter, connection registry, duel
roster and websocket message dispatch.

Modelling conventions:
* Wall-clock instants (Python floats from `time.time()`) are modelled as
  rationals `ℚ`; only comparisons and subtraction of instants occur in
  the code.
* Python dicts are modelled as association lists together with the
  `dictGet` / `dictSet` / `dictPop` helpers below, which mirror dict
  lookup, key assignment (replace in place, append if fresh) and
  `pop(key, None)`.
* An `HTTPException` raised before any mutation is modelled by returning
  the unchanged state together with `some detail`.
* A coroutine body that performs no `await` between reading and writing
  the session (the buzz handler between its state check and the lock
  assignment) is a single atomic step under asyncio's cooperative
  scheduler, so concurrent interleavings of such steps are exactly their
  sequential orderings.
-/

namespace Agora

/-- Python dict lookup `d.get(k)` on an association list. -/
def dictGet {α : Type} (d : List (String × α)) (k : String) : Option α :=
  match d with
  | [] => none
  | (k', v) :: rest => if k' = k then some v else dictGet rest k

/-- Python dict assignment `d[k] = v`: replaces the value in place when the
key is present, appends otherwise. -/
def dictSet {α : Type} (d : List (String × α)) (k : String) (v : α) :
    List (String × α) :=
  match d with
  | [] => [(k, v)]
  | (k', v') :: rest =>
      if k' = k then (k, v) :: rest else (k', v') :: dictSet rest k v

/-- Python `d.pop(k, None)`: removes the entry for `k` when present. -/
def dictPop {α : Type} (d : List (String × α)) (k : String) :
    List (String × α) :=
  match d with
  | [] => []
  | (k', v') :: rest =>
      if k' = k then rest else (k', v') :: dictPop rest k

/-- Embeds `models.BuzzerState`. -/
inductive BuzzerState
  | disabled
  | enabled
  | locked
  deriving DecidableEq, Repr

/-- Embeds `models.SessionState`. -/
structure SessionState where
  session_id : String
  buzzer_state : BuzzerState
  buzzer_winner : Option String
  buzzer_timestamp : Option ℚ
  question_number : Nat
  deriving DecidableEq, Repr

/-- Embeds `models.TeamInfo` (scores are ints in Python, clamped at 0 by
`update_score`). -/
structure TeamInfo where
  team_id : String
  team_name : String
  score : Int
  is_connected : Bool
  joined_at : Option ℚ
  deriving DecidableEq, Repr

/-- The `"main"` session seeded by `seed_initial_data`. -/
def initialSession : SessionState :=
  { session_id := "main"
  , buzzer_state := .disabled
  , buzzer_winner := none
  , buzzer_timestamp := none
  , question_number := 0 }

/-- Embeds `main.enable_buzzer`: rejects with HTTP 400 `"Reset buzzer first"`
while locked (before any mutation); otherwise opens the buzzer, clears
winner and timestamp and increments the question counter. -/
def enable_buzzer (s : SessionState) : SessionState × Option String :=
  if s.buzzer_state = .locked then
    (s, some "Reset buzzer first")
  else
    ({ s with buzzer_state := .enabled
            , buzzer_winner := none
            , buzzer_timestamp := none
            , question_number := s.question_number + 1 }, none)

/-- Embeds `main.disable_buzzer`: sets the state to disabled and touches nothing
else (winner and timestamp are kept). -/
def disable_buzzer (s : SessionState) : SessionState :=
  { s with buzzer_state := .disabled }

/-- Embeds `main.reset_buzzer`: disabled state, winner and timestamp cleared. -/
def reset_buzzer (s : SessionState) : SessionState :=
  { s with buzzer_state := .disabled
         , buzzer_winner := none
         , buzzer_timestamp := none }

/-- Embeds `main.panic_button` session mutation: same clearing as reset. -/
def panic_button (s : SessionState) : SessionState :=
  { s with buzzer_state := .disabled
         , buzzer_winner := none
         , buzzer_timestamp := none }

/-- Outcome of one buzz handled by the websocket endpoint after rate
limiting: either the buzzer locks for the sender or the attempt is
rejected because the state was not `enabled`. -/
inductive SignalResult
  | accepted
  | rejected_not_enabled
  deriving DecidableEq, Repr

/-- The state-machine core of the `"buzz"` branch of
`main.websocket_endpoint` (lines 346–353): if the buzzer is not enabled
the attempt is rejected, otherwise the session locks with the sender as
winner and `now` as timestamp.  In the source there is no `await`
between the state check and the lock assignment, so this is one atomic
step of the event loop. -/
def attempt_signal (s : SessionState) (client_id : String) (now : ℚ) :
    SessionState × SignalResult :=
  if s.buzzer_state ≠ .enabled then
    (s, .rejected_not_enabled)
  else
    ({ s with buzzer_state := .locked
            , buzzer_winner := some client_id
            , buzzer_timestamp := some now }, .accepted)

/-- Embeds `main.update_score`: 404 `"Team not found"` when the id is absent
(before any mutation); otherwise the team's score becomes
`max 0 (score + delta)`. -/
def update_score (teams : List (String × TeamInfo)) (team_id : String)
    (delta : Int) : List (String × TeamInfo) × Option String :=
  match dictGet teams team_id with
  | none => (teams, some "Team not found")
  | some t =>
      (dictSet teams team_id { t with score := max 0 (t.score + delta) }, none)

/-- Embeds `main.reset_scores`: zeroes every roster score, then resets the bound
session's question counter, state and winner — the timestamp is not
touched. -/
def reset_scores (teams : List (String × TeamInfo)) (s : SessionState) :
    List (String × TeamInfo) × SessionState :=
  (teams.map (fun p => (p.1, { p.2 with score := 0 })),
   { s with question_number := 0
          , buzzer_state := .disabled
          , buzzer_winner := none })

/-- Embeds `main.set_teams`: replaces the roster wholesale (both ids lowercased,
scores 0, disconnected) and resets the bound session's state, winner and
question counter — the timestamp is not touched. -/
def set_teams (team_a_id team_a_name team_b_id team_b_name : String)
    (s : SessionState) : List (String × TeamInfo) × SessionState :=
  ([ (team_a_id.toLower,
      { team_id := team_a_id.toLower, team_name := team_a_name
      , score := 0, is_connected := false, joined_at := none })
   , (team_b_id.toLower,
      { team_id := team_b_id.toLower, team_name := team_b_name
      , score := 0, is_connected := false, joined_at := none }) ],
   { s with buzzer_state := .disabled
          , buzzer_winner := none
          , question_number := 0 })

/-- Embeds `models.RateLimiter`: max `max_events` events per `window` seconds,
per client id; `_log` maps client ids to their recorded instants. -/
structure RateLimiter where
  max_events : Nat
  window : ℚ
  log : List (String × List ℚ)
  deriving DecidableEq, Repr

/-- Embeds `RateLimiter()` with the constructor defaults `max_events=3`,
`window_seconds=5.0`. -/
def RateLimiter.default : RateLimiter :=
  { max_events := 3, window := 5, log := [] }

/-- Embeds `RateLimiter.record`: appends the current instant to the client's
ledger (creating it when absent). -/
def RateLimiter.record (rl : RateLimiter) (client_id : String) (now : ℚ) :
    RateLimiter :=
  { rl with log :=
      dictSet rl.log client_id (((dictGet rl.log client_id).getD []) ++ [now]) }

/-- Embeds `RateLimiter.is_limited`: keeps only the events with `now - t < window`,
writes the pruned ledger back, and reports whether the retained count has
reached `max_events`. -/
def RateLimiter.is_limited (rl : RateLimiter) (client_id : String) (now : ℚ) :
    Bool × RateLimiter :=
  let events := (dictGet rl.log client_id).getD []
  let recent := events.filter (fun t => now - t < rl.window)
  (decide (rl.max_events ≤ recent.length),
   { rl with log := dictSet rl.log client_id recent })

/-- One registered channel of `models.ConnectionManager`: the websocket is
abstracted by a numeric channel id. -/
structure ConnEntry where
  ws : Nat
  role : String
  deriving DecidableEq, Repr

/-- A `close(code=..., reason=...)` issued to a channel. -/
structure CloseAction where
  chan : Nat
  code : Nat
  reason : String
  deriving DecidableEq, Repr

/-- Embeds `ConnectionManager._connections`: session id → (client id → entry). -/
structure ConnectionManager where
  connections : List (String × List (String × ConnEntry))
  deriving DecidableEq, Repr

/-- Embeds `ConnectionManager.connect`: ensures the session bucket exists, closes
a previously registered channel of the same client with code 4009
(`"New connection from same client"`), then registers the new channel.
The list of close actions issued is returned alongside. -/
def ConnectionManager.connect (m : ConnectionManager) (ws : Nat)
    (session_id client_id role : String) :
    ConnectionManager × List CloseAction :=
  let conns :=
    if (dictGet m.connections session_id).isNone then
      dictSet m.connections session_id []
    else m.connections
  let sess := (dictGet conns session_id).getD []
  let closes :=
    match dictGet sess client_id with
    | some old => [⟨old.ws, 4009, "New connection from same client"⟩]
    | none => []
  (⟨dictSet conns session_id (dictSet sess client_id ⟨ws, role⟩)⟩, closes)

/-- Embeds `ConnectionManager.disconnect`: drops the client's entry if present. -/
def ConnectionManager.disconnect (m : ConnectionManager)
    (session_id client_id : String) : ConnectionManager :=
  match dictGet m.connections session_id with
  | none => m
  | some sess => ⟨dictSet m.connections session_id (dictPop sess client_id)⟩

/-- The `for` loop of `ConnectionManager.broadcast`: walks the session's
entries in order; an excluded client is skipped, a channel on which
`send_json` raises (abstracted by the `fails` predicate on channel ids)
is collected as dead, every other client receives the message.  Returns
(delivered client ids, dead client ids). -/
def broadcastLoop (sess : List (String × ConnEntry)) (fails : Nat → Bool)
    (exclude : Option String) : List String × List String :=
  match sess with
  | [] => ([], [])
  | (cid, e) :: rest =>
      let r := broadcastLoop rest fails exclude
      if some cid = exclude then r
      else if fails e.ws then (r.1, cid :: r.2)
      else (cid :: r.1, r.2)

/-- Embeds `ConnectionManager.broadcast`: no-op for an unknown session; otherwise
runs the send loop and then pops every dead client from the bucket.  No
send failure escapes: the result is always defined. -/
def ConnectionManager.broadcast (m : ConnectionManager) (session_id : String)
    (fails : Nat → Bool) (exclude : Option String) :
    ConnectionManager × List String :=
  match dictGet m.connections session_id with
  | none => (m, [])
  | some sess =>
      let r := broadcastLoop sess fails exclude
      (⟨dictSet m.connections session_id
          (r.2.foldl (fun acc d => dictPop acc d) sess)⟩, r.1)

/-- Embeds `ConnectionManager.count`. -/
def ConnectionManager.count (m : ConnectionManager) (session_id : String) :
    Nat :=
  ((dictGet m.connections session_id).getD []).length

/-- One inbound frame of the websocket loop: either text that fails
`json.loads`, or a decoded object whose `"type"` field is
`data.get("type")` (possibly absent). -/
inductive InMsg
  | badJSON
  | typed (msg_type : Option String)
  deriving DecidableEq, Repr

/-- A message sent back on the sender's own channel by the loop body of
`main.websocket_endpoint`. -/
inductive OutMsg
  | error (message : String)
  | buzz_rejected (reason : String)
  | pong (ts : ℚ)
  deriving DecidableEq, Repr

/-- Result of one iteration of the receive loop of
`main.websocket_endpoint`: updated session and limiter, the unicast
replies sent to the sender, the `buzzer_locked` broadcast when a buzz
was accepted (winner id and timestamp), and whether the loop closed the
connection (the body never does — only a disconnect exception ends it). -/
structure HandleResult where
  session : SessionState
  limiter : RateLimiter
  unicast : List OutMsg
  locked_broadcast : Option (String × ℚ)
  closes : Bool
  deriving DecidableEq, Repr

/-- The dispatch of one received frame in `main.websocket_endpoint`
(lines 330–370): malformed JSON is answered with `error "Bad JSON"`;
`"buzz"` from a participant goes through the rate limiter (whose pruning
write-back happens even when the attempt proceeds), then through
`attempt_signal`, answering `buzz_rejected "not_enabled"` or
broadcasting the lock; `"ping"` is answered with a `pong`; any other
frame falls through both branches and nothing is sent. -/
def handle_message (role client_id : String) (rl : RateLimiter)
    (s : SessionState) (now : ℚ) (msg : InMsg) : HandleResult :=
  match msg with
  | .badJSON => ⟨s, rl, [.error "Bad JSON"], none, false⟩
  | .typed msg_type =>
      if msg_type = some "buzz" ∧ role = "participant" then
        let lim := rl.is_limited client_id now
        if lim.1 then
          ⟨s, lim.2, [.error "Rate limited"], none, false⟩
        else
          let rl2 := lim.2.record client_id now
          let sig := attempt_signal s client_id now
          match sig.2 with
          | .rejected_not_enabled =>
              ⟨s, rl2, [.buzz_rejected "not_enabled"], none, false⟩
          | .accepted =>
              ⟨sig.1, rl2, [], some (client_id, now), false⟩
      else if msg_type = some "ping" then
        ⟨s, rl, [.pong now], none, false⟩
      else
        ⟨s, rl, [], none, false⟩

/-- The session-mutating operations of the backend, as one alphabet for
reachability arguments: the admin endpoints and an accepted-or-rejected
buzz.  Each constructor applies the corresponding definition above. -/
inductive SessionOp
  | enable
  | disable
  | reset
  | panic
  | resetScores
  | setTeams (a_id a_name b_id b_name : String)
  | buzz (client_id : String) (now : ℚ)
  deriving Repr

/-- Effect of one operation on the session state (roster effects are
dropped: only the session component matters for the state-machine
invariants). -/
def applySessionOp (s : SessionState) (op : SessionOp) : SessionState :=
  match op with
  | .enable => (enable_buzzer s).1
  | .disable => disable_buzzer s
  | .reset => reset_buzzer s
  | .panic => panic_button s
  | .resetScores => (reset_scores [] s).2
  | .setTeams a an b bn => (set_teams a an b bn s).2
  | .buzz cid now => (attempt_signal s cid now).1

/-- Running a sequence of operations from a state. -/
def runOps (s : SessionState) (ops : List SessionOp) : SessionState :=
  ops.foldl applySessionOp s

/-- Running a batch of buzz attempts back to back, recording for each the
buzzer state it observed at its own check together with its outcome.
Because each attempt is one atomic event-loop step (no `await` separates
its check from its lock assignment), every concurrent interleaving of a
set of attempts is one of these sequential orderings. -/
def runAttempts (s : SessionState) (attempts : List (String × ℚ)) :
    SessionState × List (BuzzerState × SignalResult) :=
  match attempts with
  | [] => (s, [])
  | (cid, now) :: rest =>
      let r := attempt_signal s cid now
      let tail := runAttempts r.1 rest
      (tail.1, (s.buzzer_state, r.2) :: tail.2)

/-- The rate-limiter admission protocol of the buzz branch
(`main.websocket_endpoint` lines 340–343): check `is_limited` (whose
pruning write-back always happens), and `record` the attempt only when
it was admitted.  Returns (limited?, updated limiter). -/
def rlStep (rl : RateLimiter) (client_id : String) (now : ℚ) :
    Bool × RateLimiter :=
  let lim := rl.is_limited client_id now
  if lim.1 then (true, lim.2) else (false, lim.2.record client_id now)

/-- The ledger-retention rule exactly as the claim words it: only entries
strictly older than `now - window` are pruned, so an entry is retained
iff `¬ t < now - window`.  Kept separate from `RateLimiter.is_limited`
(translated from the source) so the two rules can be compared. -/
def claimRetained (events : List ℚ) (now window : ℚ) : List ℚ :=
  events.filter (fun t => ¬ t < now - window)

/-- The winner/timestamp pairing invariant exactly as the claim words it:
both set or both unset, both unset in Disabled and Enabled, both set in
Locked. -/
def claimPairingInv (s : SessionState) : Prop :=
  (s.buzzer_winner.isSome ↔ s.buzzer_timestamp.isSome)
  ∧ ((s.buzzer_state = .disabled ∨ s.buzzer_state = .enabled) →
      s.buzzer_winner = none ∧ s.buzzer_timestamp = none)
  ∧ (s.buzzer_state = .locked →
      s.buzzer_winner.isSome ∧ s.buzzer_timestamp.isSome)

instance (s : SessionState) : Decidable (claimPairingInv s) := by
  unfold claimPairingInv
  infer_instance

/-- The pairing invariant the code actually maintains: a set winner always
comes with a set timestamp (never conversely — `reset_scores` and
`set_teams` clear only the winner), Enabled always has both unset, and
Locked always has both set.  Disabled states may carry a stale winner
and/or timestamp because `disable_buzzer` clears neither. -/
def pairingInv (s : SessionState) : Prop :=
  (s.buzzer_winner.isSome → s.buzzer_timestamp.isSome)
  ∧ (s.buzzer_state = .enabled →
      s.buzzer_winner = none ∧ s.buzzer_timestamp = none)
  ∧ (s.buzzer_state = .locked →
      s.buzzer_winner.isSome ∧ s.buzzer_timestamp.isSome)

instance (s : SessionState) : Decidable (pairingInv s) := by
  unfold pairingInv
  infer_instance

/-- The close codes the websocket handshake uses for rejections
(`main.websocket_endpoint` lines 288–299): missing token, invalid token,
unknown session.  The supersede close of
`ConnectionManager.connect` uses 4009, distinct from all of them. -/
def handshakeCloseCodes : List Nat := [4001, 4003, 4004]

/-! ## Association-list (dict) lemmas -/

theorem dictGet_dictSet_self {α : Type} (d : List (String × α)) (k : String)
    (v : α) : dictGet (dictSet d k v) k = some v := by
  induction d with
  | nil => simp [dictSet, dictGet]
  | cons hd tl ih =>
      obtain ⟨k', v'⟩ := hd
      by_cases h : k' = k
      · simp [dictSet, dictGet, h]
      · simp [dictSet, dictGet, h, ih]

theorem dictGet_dictSet_ne {α : Type} (d : List (String × α)) (k j : String)
    (v : α) (h : j ≠ k) : dictGet (dictSet d k v) j = dictGet d j := by
  induction d with
  | nil =>
      have hkj : ¬ k = j := fun hh => h hh.symm
      simp [dictSet, dictGet, hkj]
  | cons hd tl ih =>
      obtain ⟨k', v'⟩ := hd
      by_cases hk : k' = k
      · subst hk
        have hkj : ¬ k' = j := fun hh => h hh.symm
        simp [dictSet, dictGet, hkj]
      · by_cases hj : k' = j
        · simp [dictSet, dictGet, hk, hj, h]
        · simp [dictSet, dictGet, hk, hj, ih]

theorem dictGet_eq_none_iff {α : Type} (d : List (String × α)) (k : String) :
    dictGet d k = none ↔ k ∉ d.map Prod.fst := by
  induction d with
  | nil => simp [dictGet]
  | cons hd tl ih =>
      obtain ⟨k', v'⟩ := hd
      by_cases h : k' = k
      · subst h
        simp [dictGet]
      · have hkk : ¬ k = k' := fun hh => h hh.symm
        simp [dictGet, h, ih, hkk]

theorem keys_dictSet {α : Type} (d : List (String × α)) (k : String) (v : α) :
    (dictSet d k v).map Prod.fst =
      if k ∈ d.map Prod.fst then d.map Prod.fst
      else d.map Prod.fst ++ [k] := by
  induction d with
  | nil => simp [dictSet]
  | cons hd tl ih =>
      obtain ⟨k', v'⟩ := hd
      by_cases h : k' = k
      · simp [dictSet, h]
      · have hkk : ¬ k = k' := fun hh => h hh.symm
        simp only [dictSet, if_neg h, List.map_cons]
        by_cases hm : k ∈ tl.map Prod.fst
        · simp [hm, ih, hkk]
        · simp [hm, ih, hkk]

/-! ## C4: enable fails exactly from Locked -/

/-- C4: `enable_buzzer` fails iff the state is Locked; on failure it
reports `"Reset buzzer first"` (HTTP 400) and returns the session
untouched, round counter included; on success it enables the buzzer,
clears winner and timestamp, and increments the question counter by
exactly one. -/
theorem enable_fails_iff_locked (s : SessionState) :
    ((enable_buzzer s).2.isSome ↔ s.buzzer_state = .locked)
    ∧ (s.buzzer_state = .locked →
        enable_buzzer s = (s, some "Reset buzzer first"))
    ∧ (s.buzzer_state ≠ .locked →
        (enable_buzzer s).2 = none
        ∧ (enable_buzzer s).1.buzzer_state = .enabled
        ∧ (enable_buzzer s).1.buzzer_winner = none
        ∧ (enable_buzzer s).1.buzzer_timestamp = none
        ∧ (enable_buzzer s).1.question_number = s.question_number + 1) := by
  unfold enable_buzzer
  by_cases h : s.buzzer_state = .locked <;> simp [h]

/-- C4 witness: a locked session is rejected unchanged; the fresh session
is enabled with round counter 1. -/
theorem enable_fails_iff_locked_witness :
    (enable_buzzer
        { session_id := "main", buzzer_state := .locked
        , buzzer_winner := some "gadzit", buzzer_timestamp := some 5
        , question_number := 2 }
      = ({ session_id := "main", buzzer_state := .locked
         , buzzer_winner := some "gadzit", buzzer_timestamp := some 5
         , question_number := 2 }, some "Reset buzzer first"))
    ∧ (enable_buzzer initialSession).1.question_number = 1 :=
  ⟨(enable_fails_iff_locked _).2.1 rfl,
   ((enable_fails_iff_locked initialSession).2.2 (by decide)).2.2.2.2⟩

/-! ## C9: score floor and UnknownParty -/

/-- C9: `update_score` answers `"Team not found"` (HTTP 404) for an id
absent from the roster, leaving every score unchanged; for a present id
it sets that team's score to `max 0 (score + delta)` and leaves the
other teams untouched. -/
theorem update_score_clamps (teams : List (String × TeamInfo))
    (team_id : String) (delta : Int) :
    (dictGet teams team_id = none →
        update_score teams team_id delta = (teams, some "Team not found"))
    ∧ (∀ t, dictGet teams team_id = some t →
        (update_score teams team_id delta).2 = none
        ∧ dictGet (update_score teams team_id delta).1 team_id
            = some { t with score := max 0 (t.score + delta) }
        ∧ ∀ j, j ≠ team_id →
            dictGet (update_score teams team_id delta).1 j
              = dictGet teams j) := by
  constructor
  · intro h
    simp [update_score, h]
  · intro t ht
    refine ⟨by simp [update_score, ht], ?_, ?_⟩
    · simp [update_score, ht, dictGet_dictSet_self]
    · intro j hj
      simp [update_score, ht, dictGet_dictSet_ne _ _ _ _ hj]

/-- C9 witness: adjusting `gadzit` (score 30) by −100 yields 0, and an
unknown id is rejected with the roster unchanged. -/
theorem update_score_clamps_witness :
    (dictGet (update_score
        [("gadzit",
          { team_id := "gadzit", team_name := "GadzIT", score := 30
          , is_connected := true, joined_at := none })]
        "gadzit" (-100)).1 "gadzit"
      = some { team_id := "gadzit", team_name := "GadzIT", score := 0
             , is_connected := true, joined_at := none })
    ∧ update_score [] "phoenix" 7 = ([], some "Team not found") := by
  constructor
  · have h := ((update_score_clamps
      [("gadzit",
        { team_id := "gadzit", team_name := "GadzIT", score := 30
        , is_connected := true, joined_at := none })]
      "gadzit" (-100)).2 _ (by rfl)).2.1
    rw [h]
    norm_num
  · exact (update_score_clamps [] "phoenix" 7).1 rfl

/-! ## C10: reset-scores resets the session but not the timestamp -/

/-- C10: `reset_scores` zeroes every roster score and resets the bound
session — question counter 0, state Disabled, winner cleared — while
leaving `buzzer_timestamp` exactly as it was; consequently the round
counter strictly decreases whenever it was positive, so it is not
monotone across a match. -/
theorem reset_scores_resets_session (teams : List (String × TeamInfo))
    (s : SessionState) :
    (reset_scores teams s).2.question_number = 0
    ∧ (reset_scores teams s).2.buzzer_state = .disabled
    ∧ (reset_scores teams s).2.buzzer_winner = none
    ∧ (reset_scores teams s).2.buzzer_timestamp = s.buzzer_timestamp
    ∧ (∀ p ∈ (reset_scores teams s).1, p.2.score = 0)
    ∧ (0 < s.question_number →
        (reset_scores teams s).2.question_number < s.question_number) := by
  refine ⟨rfl, rfl, rfl, rfl, ?_, ?_⟩
  · intro p hp
    simp only [reset_scores, List.mem_map] at hp
    obtain ⟨q, _, hq⟩ := hp
    simp [← hq]
  · intro h
    simpa [reset_scores] using h

/-- C10 witness: a locked session with timestamp 7 and round 3, roster
score 10, after `reset_scores`: round 0, disabled, winner cleared,
timestamp still 7, score 0, and the round counter decreased. -/
theorem reset_scores_resets_session_witness :
    ((reset_scores
        [("gadzit",
          { team_id := "gadzit", team_name := "GadzIT", score := 10
          , is_connected := true, joined_at := none })]
        { session_id := "main", buzzer_state := .locked
        , buzzer_winner := some "gadzit", buzzer_timestamp := some 7
        , question_number := 3 }).2.buzzer_timestamp = some 7)
    ∧ ((reset_scores
        [("gadzit",
          { team_id := "gadzit", team_name := "GadzIT", score := 10
          , is_connected := true, joined_at := none })]
        { session_id := "main", buzzer_state := .locked
        , buzzer_winner := some "gadzit", buzzer_timestamp := some 7
        , question_number := 3 }).2.question_number < 3) := by
  refine ⟨(reset_scores_resets_session _ _).2.2.2.1.trans rfl, ?_⟩
  exact (reset_scores_resets_session
    [("gadzit",
      { team_id := "gadzit", team_name := "GadzIT", score := 10
      , is_connected := true, joined_at := none })]
    { session_id := "main", buzzer_state := .locked
    , buzzer_winner := some "gadzit", buzzer_timestamp := some 7
    , question_number := 3 }).2.2.2.2.2 (by decide)

/-! ## C5: rate-limiter window -/

/-- C5 counterexample: the claim's retention rule ("prunes every entry
older than `now - window`") disagrees with the code at the window
boundary.  With max=3, window=5 and a ledger of three events at t=0, a
check at now=5 finds all three entries exactly `window` old: the claim's
rule retains all three (none is *older* than `now - window = 0`), so the
claim predicts `is_limited = true`, but the code prunes them (it retains
only `now - t < window`) and returns `false`. -/
theorem is_limited_boundary_counterexample :
    (dictGet (((RateLimiter.default.record "gadzit" 0).record "gadzit" 0).record
        "gadzit" 0).log "gadzit" = some [0, 0, 0])
    ∧ ((((RateLimiter.default.record "gadzit" 0).record "gadzit" 0).record
        "gadzit" 0).is_limited "gadzit" 5).1 = false
    ∧ RateLimiter.default.max_events ≤
        (claimRetained [0, 0, 0] 5 RateLimiter.default.window).length := by
  refine ⟨by decide, ?_, ?_⟩
  · norm_num [RateLimiter.is_limited, RateLimiter.record, RateLimiter.default,
      dictGet, dictSet]
  · norm_num [claimRetained, RateLimiter.default]

/-- C5 (amended): `is_limited` prunes every entry at least `window` old
(an entry exactly `window` old is pruned, so retention is
`now - t < window`, strictly), writes the pruned ledger back for the
client, and returns true iff the retained count is at least
`max_events`; with the default max=3 and window=5s, attempts at
t=0,1,2 are admitted and recorded, a 4th attempt at t=3 is limited, and
a subsequent attempt at t=6 is admitted. -/
theorem is_limited_window :
    (∀ (rl : RateLimiter) (client_id : String) (now : ℚ),
        ((rl.is_limited client_id now).1 = true ↔
          rl.max_events ≤
            (((dictGet rl.log client_id).getD []).filter
              (fun t => now - t < rl.window)).length)
        ∧ dictGet (rl.is_limited client_id now).2.log client_id
            = some (((dictGet rl.log client_id).getD []).filter
                (fun t => now - t < rl.window)))
    ∧ ((rlStep RateLimiter.default "gadzit" 0).1 = false
       ∧ (rlStep (rlStep RateLimiter.default "gadzit" 0).2 "gadzit" 1).1 = false
       ∧ (rlStep (rlStep (rlStep RateLimiter.default "gadzit" 0).2
            "gadzit" 1).2 "gadzit" 2).1 = false
       ∧ (rlStep (rlStep (rlStep (rlStep RateLimiter.default "gadzit" 0).2
            "gadzit" 1).2 "gadzit" 2).2 "gadzit" 3).1 = true
       ∧ (rlStep (rlStep (rlStep (rlStep (rlStep RateLimiter.default
            "gadzit" 0).2 "gadzit" 1).2 "gadzit" 2).2 "gadzit" 3).2
            "gadzit" 6).1 = false) := by
  constructor
  · intro rl client_id now
    constructor
    · simp [RateLimiter.is_limited]
    · simp [RateLimiter.is_limited, dictGet_dictSet_self]
  · refine ⟨?_, ?_, ?_, ?_, ?_⟩ <;>
      norm_num [rlStep, RateLimiter.is_limited, RateLimiter.record,
        RateLimiter.default, dictGet, dictSet]

/-- C5 witness: the scenario conjunct of the amended theorem at its first
step — the attempt at t=0 is admitted. -/
theorem is_limited_window_witness :
    (rlStep RateLimiter.default "gadzit" 0).1 = false :=
  is_limited_window.2.1

/-! ## C2: the winner/timestamp pairing invariant -/

/-- C2 counterexample: the pairing invariant as claimed fails on a
reachable state.  `disable_buzzer` sets the state to Disabled without
clearing winner or timestamp, so after enable → buzz → disable the
session is Disabled yet still carries `winner = some "gadzit"` and a
set timestamp, contradicting "both are unset whenever buzzer_state is
Disabled". -/
theorem pairing_claim_counterexample :
    ¬ claimPairingInv
        (runOps initialSession [.enable, .buzz "gadzit" 5, .disable])
    ∧ (runOps initialSession
        [.enable, .buzz "gadzit" 5, .disable]).buzzer_state = .disabled
    ∧ (runOps initialSession
        [.enable, .buzz "gadzit" 5, .disable]).buzzer_winner
        = some "gadzit" := by
  refine ⟨by decide, by decide, by decide⟩

theorem pairingInv_step (s : SessionState) (op : SessionOp)
    (h : pairingInv s) : pairingInv (applySessionOp s op) := by
  obtain ⟨h1, h2, h3⟩ := h
  cases op with
  | enable =>
      by_cases hl : s.buzzer_state = .locked
      · simpa [applySessionOp, enable_buzzer, hl] using ⟨h1, h2, h3⟩
      · simp [applySessionOp, enable_buzzer, hl, pairingInv]
  | disable =>
      refine ⟨fun hw => ?_, ?_, ?_⟩
      · exact h1 (by simpa [applySessionOp, disable_buzzer] using hw)
      · simp [applySessionOp, disable_buzzer]
      · simp [applySessionOp, disable_buzzer]
  | reset => simp [applySessionOp, reset_buzzer, pairingInv]
  | panic => simp [applySessionOp, panic_button, pairingInv]
  | resetScores =>
      refine ⟨?_, ?_, ?_⟩ <;> simp [applySessionOp, reset_scores]
  | setTeams a an b bn =>
      refine ⟨?_, ?_, ?_⟩ <;> simp [applySessionOp, set_teams]
  | buzz cid now =>
      by_cases he : s.buzzer_state = .enabled
      · simp [applySessionOp, attempt_signal, he, pairingInv]
      · simpa [applySessionOp, attempt_signal, he] using ⟨h1, h2, h3⟩

theorem pairingInv_runOps (s : SessionState) (h : pairingInv s)
    (ops : List SessionOp) : pairingInv (runOps s ops) := by
  induction ops generalizing s with
  | nil => exact h
  | cons op rest ih => exact ih (applySessionOp s op) (pairingInv_step s op h)

/-- C2 (amended): on every reachable session state, a set
`buzzer_winner` always comes with a set `buzzer_timestamp`; whenever
the state is Enabled both are unset, and whenever it is Locked both are
set — and every operation (enable, disable, reset, panic, accepted
signal, score reset, roster reconfigure) preserves this.  The original
claim's stronger pairing fails: `disable_buzzer` leaves winner and
timestamp set in the Disabled state, and `reset_scores` / `set_teams`
clear the winner but not the timestamp, so a Disabled state can carry a
timestamp without a winner. -/
theorem pairingInv_reachable (ops : List SessionOp) :
    pairingInv (runOps initialSession ops) :=
  pairingInv_runOps initialSession (by decide) ops

/-! ## C1: at most one winner -/

theorem runAttempts_locked (s : SessionState) (attempts : List (String × ℚ))
    (h : s.buzzer_state = .locked) :
    runAttempts s attempts
      = (s, attempts.map (fun _ =>
          (BuzzerState.locked, SignalResult.rejected_not_enabled))) := by
  induction attempts with
  | nil => simp [runAttempts]
  | cons a rest ih =>
      obtain ⟨cid, now⟩ := a
      simp [runAttempts, attempt_signal, h, ih]

/-- C1: for every batch of signal attempts issued while the session is
Enabled, exactly one attempt is accepted — the first one, which locks
the session and installs its client id and timestamp as winner — and
every other attempt observes the already-Locked state and is rejected.
Each attempt is one atomic event-loop step in the source (no `await`
separates the Enabled check from the lock assignment), so the
sequential orderings quantified here are exactly the possible
concurrent interleavings; no interleaving produces two winners. -/
theorem at_most_one_winner (s : SessionState) (first : String × ℚ)
    (rest : List (String × ℚ)) (h : s.buzzer_state = .enabled) :
    ((runAttempts s (first :: rest)).2.countP
        (fun o => decide (o.2 = SignalResult.accepted)) = 1)
    ∧ (runAttempts s (first :: rest)).2.head?
        = some (BuzzerState.enabled, SignalResult.accepted)
    ∧ (∀ o ∈ (runAttempts s (first :: rest)).2.tail,
        o = (BuzzerState.locked, SignalResult.rejected_not_enabled))
    ∧ (runAttempts s (first :: rest)).1.buzzer_state = .locked
    ∧ (runAttempts s (first :: rest)).1.buzzer_winner = some first.1
    ∧ (runAttempts s (first :: rest)).1.buzzer_timestamp = some first.2 := by
  obtain ⟨cid, now⟩ := first
  have hs : attempt_signal s cid now =
      ({ s with buzzer_state := BuzzerState.locked,
                buzzer_winner := some cid,
                buzzer_timestamp := some now }, SignalResult.accepted) := by
    simp [attempt_signal, h]
  have hl := runAttempts_locked
    { s with buzzer_state := BuzzerState.locked,
             buzzer_winner := some cid,
             buzzer_timestamp := some now } rest rfl
  refine ⟨?_, ?_, ?_, ?_, ?_, ?_⟩ <;>
    simp [runAttempts, hs, hl, h, List.countP_eq_zero]

/-- C1 witness: from an enabled session, of two back-to-back buzzes the
first (`gadzit`) wins and the second is rejected seeing Locked. -/
theorem at_most_one_winner_witness :
    ((runAttempts
        { session_id := "main", buzzer_state := .enabled
        , buzzer_winner := none, buzzer_timestamp := none
        , question_number := 1 }
        [("gadzit", 3), ("phoenix", 3)]).2.countP
        (fun o => decide (o.2 = SignalResult.accepted)) = 1)
    ∧ (runAttempts
        { session_id := "main", buzzer_state := .enabled
        , buzzer_winner := none, buzzer_timestamp := none
        , question_number := 1 }
        [("gadzit", 3), ("phoenix", 3)]).1.buzzer_winner = some "gadzit" := by
  have h := at_most_one_winner
    { session_id := "main", buzzer_state := .enabled
    , buzzer_winner := none, buzzer_timestamp := none
    , question_number := 1 }
    ("gadzit", 3) [("phoenix", 3)] rfl
  exact ⟨h.1, h.2.2.2.2.1⟩

/-! ## C3: rejection replies -/

/-- C3 counterexample: a buzz while the session is Locked is answered
with reason `"not_enabled"`, not the claimed `"already_locked"` — the
handler uses one branch for every non-Enabled state.  (The rate-limited
rejection likewise diverges: it is a generic `error "Rate limited"`,
not a typed rejection with reason `"rate_limited"`.) -/
theorem locked_buzz_reports_not_enabled :
    (handle_message "participant" "gadzit" RateLimiter.default
        { session_id := "main", buzzer_state := .locked,
          buzzer_winner := some "phoenix", buzzer_timestamp := some 2,
          question_number := 1 } 3 (.typed (some "buzz"))).unicast
      = [OutMsg.buzz_rejected "not_enabled"]
    ∧ [OutMsg.buzz_rejected "not_enabled"]
        ≠ [OutMsg.buzz_rejected "already_locked"] := by
  constructor
  · decide
  · decide

/-- C3 (amended): every rejected buzz from a participant is answered by
a unicast to the sender only, but with two shapes: a rate-limited buzz
gets `{"type":"error","message":"Rate limited"}` (and no recording of
the attempt), and a buzz in any non-Enabled state — Disabled or Locked
alike — gets `{"type":"buzz_rejected","reason":"not_enabled"}` with the
session unchanged; an admitted buzz in the Enabled state sends no
unicast and broadcasts the lock instead. -/
theorem rejection_replies (rl : RateLimiter) (s : SessionState)
    (client_id : String) (now : ℚ) :
    ((rl.is_limited client_id now).1 = true →
        (handle_message "participant" client_id rl s now
            (.typed (some "buzz"))).unicast = [OutMsg.error "Rate limited"]
        ∧ (handle_message "participant" client_id rl s now
            (.typed (some "buzz"))).locked_broadcast = none
        ∧ (handle_message "participant" client_id rl s now
            (.typed (some "buzz"))).session = s)
    ∧ ((rl.is_limited client_id now).1 = false → s.buzzer_state ≠ .enabled →
        (handle_message "participant" client_id rl s now
            (.typed (some "buzz"))).unicast
          = [OutMsg.buzz_rejected "not_enabled"]
        ∧ (handle_message "participant" client_id rl s now
            (.typed (some "buzz"))).locked_broadcast = none
        ∧ (handle_message "participant" client_id rl s now
            (.typed (some "buzz"))).session = s)
    ∧ ((rl.is_limited client_id now).1 = false → s.buzzer_state = .enabled →
        (handle_message "participant" client_id rl s now
            (.typed (some "buzz"))).unicast = []
        ∧ (handle_message "participant" client_id rl s now
            (.typed (some "buzz"))).locked_broadcast
          = some (client_id, now)) := by
  refine ⟨fun hlim => ?_, fun hlim hne => ?_, fun hlim hen => ?_⟩
  · simp [handle_message, hlim]
  · have hsig : attempt_signal s client_id now
        = (s, SignalResult.rejected_not_enabled) := by
      simp [attempt_signal, hne]
    simp [handle_message, hlim, hsig]
  · have hsig : attempt_signal s client_id now =
        ({ s with buzzer_state := BuzzerState.locked,
                  buzzer_winner := some client_id,
                  buzzer_timestamp := some now }, SignalResult.accepted) := by
      simp [attempt_signal, hen]
    simp [handle_message, hlim, hsig]

/-- C3 witness: a limiter holding three fresh events rejects a 4th buzz
at t=3 with the generic rate-limit error; a buzz against the Disabled
initial session is answered `buzz_rejected "not_enabled"`. -/
theorem rejection_replies_witness :
    (handle_message "participant" "gadzit"
        (((RateLimiter.default.record "gadzit" 0).record "gadzit" 0).record
          "gadzit" 0)
        initialSession 3 (.typed (some "buzz"))).unicast
      = [OutMsg.error "Rate limited"]
    ∧ (handle_message "participant" "gadzit" RateLimiter.default
        initialSession 1 (.typed (some "buzz"))).unicast
      = [OutMsg.buzz_rejected "not_enabled"] := by
  constructor
  · exact ((rejection_replies
      (((RateLimiter.default.record "gadzit" 0).record "gadzit" 0).record
        "gadzit" 0) initialSession "gadzit" 3).1
      (by norm_num [RateLimiter.is_limited, RateLimiter.record,
        RateLimiter.default, dictGet, dictSet])).1
  · exact ((rejection_replies RateLimiter.default initialSession
      "gadzit" 1).2.1
      (by norm_num [RateLimiter.is_limited, RateLimiter.default, dictGet])
      (by decide)).1

/-! ## C6: unrecognized message kinds -/

/-- C6 counterexample: a frame whose type is unrecognized (here
`"whoami"`) falls through both dispatch branches and nothing whatsoever
is sent back — the unicast reply list is empty — contradicting the
claim that every unrecognized kind is answered with an error-kind
reply.  (Only the connection staying open part holds.) -/
theorem unknown_type_silently_dropped :
    (handle_message "participant" "gadzit" RateLimiter.default initialSession
        1 (.typed (some "whoami"))).unicast = []
    ∧ (handle_message "participant" "gadzit" RateLimiter.default
        initialSession 1 (.typed (some "whoami"))).locked_broadcast = none
    ∧ (handle_message "participant" "gadzit" RateLimiter.default
        initialSession 1 (.typed (some "whoami"))).closes = false
    ∧ (handle_message "participant" "gadzit" RateLimiter.default
        initialSession 1 (.typed (some "whoami"))).session
      = initialSession := by
  refine ⟨?_, ?_, ?_, ?_⟩ <;> simp [handle_message]

/-- C6 (amended): a frame whose type is not a participant's `"buzz"` and
not `"ping"` is silently ignored — no reply of any kind, no broadcast,
no state change, and the connection stays open; only a frame that fails
JSON decoding is answered with an error-kind reply
(`error "Bad JSON"`), also leaving the connection open. -/
theorem unrecognized_message_ignored (role client_id : String)
    (rl : RateLimiter) (s : SessionState) (now : ℚ) (t : Option String)
    (hb : ¬ (t = some "buzz" ∧ role = "participant"))
    (hp : t ≠ some "ping") :
    handle_message role client_id rl s now (.typed t)
      = ⟨s, rl, [], none, false⟩
    ∧ handle_message role client_id rl s now .badJSON
      = ⟨s, rl, [OutMsg.error "Bad JSON"], none, false⟩ :=
  ⟨by simp [handle_message, hb, hp], rfl⟩

/-- C6 witness: a `"subscribe"` frame from the screen role is ignored
whole; bad JSON gets the error reply. -/
theorem unrecognized_message_ignored_witness :
    handle_message "screen" "screen" RateLimiter.default initialSession 1
        (.typed (some "subscribe"))
      = ⟨initialSession, RateLimiter.default, [], none, false⟩
    ∧ handle_message "screen" "screen" RateLimiter.default initialSession 1
        .badJSON
      = ⟨initialSession, RateLimiter.default, [OutMsg.error "Bad JSON"],
         none, false⟩ :=
  unrecognized_message_ignored "screen" "screen" RateLimiter.default
    initialSession 1 (some "subscribe") (by decide) (by decide)

/-! ## More dict lemmas, for eviction -/

theorem keys_dictPop_sublist {α : Type} (d : List (String × α)) (k : String) :
    List.Sublist ((dictPop d k).map Prod.fst) (d.map Prod.fst) := by
  induction d with
  | nil => simp [dictPop]
  | cons hd tl ih =>
      obtain ⟨k', v'⟩ := hd
      by_cases h : k' = k
      · simp only [dictPop, if_pos h, List.map_cons]
        exact List.sublist_cons_self _ _
      · simp only [dictPop, if_neg h, List.map_cons]
        exact List.Sublist.cons₂ k' ih

theorem dictGet_dictPop_self {α : Type} (d : List (String × α)) (k : String)
    (hnd : (d.map Prod.fst).Nodup) : dictGet (dictPop d k) k = none := by
  induction d with
  | nil => simp [dictPop, dictGet]
  | cons hd tl ih =>
      obtain ⟨k', v'⟩ := hd
      simp only [List.map_cons, List.nodup_cons] at hnd
      by_cases h : k' = k
      · subst h
        simp only [dictPop, if_pos rfl]
        exact (dictGet_eq_none_iff tl k').mpr hnd.1
      · simp only [dictPop, if_neg h, dictGet, if_neg h]
        exact ih hnd.2

theorem dictGet_dictPop_none {α : Type} (d : List (String × α)) (k j : String)
    (h : dictGet d j = none) : dictGet (dictPop d k) j = none := by
  induction d with
  | nil => simp [dictPop, dictGet]
  | cons hd tl ih =>
      obtain ⟨k', v'⟩ := hd
      simp only [dictGet] at h
      by_cases hj : k' = j
      · simp [hj] at h
      · simp only [if_neg hj] at h
        by_cases hk : k' = k
        · simp only [dictPop, if_pos hk]
          exact h
        · simp only [dictPop, if_neg hk, dictGet, if_neg hj]
          exact ih h

theorem dictGet_foldl_dictPop_none {α : Type} (ds : List String)
    (d : List (String × α)) (j : String) (h : dictGet d j = none) :
    dictGet (ds.foldl (fun acc x => dictPop acc x) d) j = none := by
  induction ds generalizing d with
  | nil => exact h
  | cons x rest ih => exact ih (dictPop d x) (dictGet_dictPop_none d x j h)

theorem dictPop_keys_nodup {α : Type} (d : List (String × α)) (k : String)
    (hnd : (d.map Prod.fst).Nodup) : ((dictPop d k).map Prod.fst).Nodup :=
  hnd.sublist (keys_dictPop_sublist d k)

theorem dictGet_foldl_dictPop_of_mem {α : Type} (ds : List String)
    (d : List (String × α)) (k : String) (hnd : (d.map Prod.fst).Nodup)
    (h : k ∈ ds) :
    dictGet (ds.foldl (fun acc x => dictPop acc x) d) k = none := by
  induction ds generalizing d with
  | nil => cases h
  | cons x rest ih =>
      rcases List.mem_cons.mp h with hx | hx
      · subst hx
        exact dictGet_foldl_dictPop_none rest (dictPop d k) k
          (dictGet_dictPop_self d k hnd)
      · exact ih (dictPop d x) (dictPop_keys_nodup d x hnd) hx

/-! ## C7: at most one live channel per identity -/

/-- C7: after `connect`, the session bucket holds exactly one entry for
the connecting client — the new channel; when a channel was already
registered for the same `(session, client)` pair, exactly one close was
issued, addressed to the old channel with the distinct supersede code
4009 (none of the handshake rejection codes); when none was registered,
no close is issued.  The no-duplicate-keys hypothesis is the Python
`dict` key-uniqueness the source registry relies on. -/
theorem connect_single_channel (m : ConnectionManager) (ws : Nat)
    (session_id client_id role : String)
    (hnd : (((dictGet m.connections session_id).getD []).map
        Prod.fst).Nodup) :
    ((((dictGet (m.connect ws session_id client_id role).1.connections
        session_id).getD []).map Prod.fst).count client_id = 1)
    ∧ dictGet ((dictGet (m.connect ws session_id client_id role).1.connections
        session_id).getD []) client_id = some ⟨ws, role⟩
    ∧ (∀ old, dictGet ((dictGet m.connections session_id).getD []) client_id
          = some old →
        (m.connect ws session_id client_id role).2
          = [⟨old.ws, 4009, "New connection from same client"⟩])
    ∧ (dictGet ((dictGet m.connections session_id).getD []) client_id = none →
        (m.connect ws session_id client_id role).2 = [])
    ∧ (∀ c ∈ (m.connect ws session_id client_id role).2,
        c.code ∉ handshakeCloseCodes) := by
  have hsess :
      (dictGet (if (dictGet m.connections session_id).isNone then
          dictSet m.connections session_id [] else m.connections)
        session_id).getD []
      = (dictGet m.connections session_id).getD [] := by
    cases hc : dictGet m.connections session_id with
    | none => simp [hc, dictGet_dictSet_self]
    | some sess => simp [hc]
  simp only [ConnectionManager.connect, hsess, dictGet_dictSet_self,
    Option.getD_some]
  refine ⟨?_, ?_, ?_, ?_, ?_⟩
  case refine_2 => simp [dictGet_dictSet_self]
  · rw [keys_dictSet]
    by_cases hm : client_id ∈
        ((dictGet m.connections session_id).getD []).map Prod.fst
    · simp only [if_pos hm]
      exact List.count_eq_one_of_mem hnd hm
    · simp only [if_neg hm, List.count_append]
      rw [List.count_eq_zero.mpr hm]
      simp
  · intro old hold
    simp [hold]
  · intro hnone
    simp [hnone]
  · intro c hc
    cases hold : dictGet ((dictGet m.connections session_id).getD [])
        client_id with
    | none => simp [hold] at hc
    | some old =>
        simp only [hold, List.mem_singleton] at hc
        subst hc
        show (4009 : Nat) ∉ handshakeCloseCodes
        decide

/-- C7 witness: reconnecting `gadzit` (old channel 1) in session `main`
yields exactly one `gadzit` entry holding the new channel 2, and one
close of channel 1 with code 4009. -/
theorem connect_single_channel_witness :
    ((ConnectionManager.connect
        ⟨[("main", [("gadzit", ⟨1, "participant"⟩)])]⟩
        2 "main" "gadzit" "participant").2
      = [⟨1, 4009, "New connection from same client"⟩])
    ∧ dictGet ((dictGet (ConnectionManager.connect
        ⟨[("main", [("gadzit", ⟨1, "participant"⟩)])]⟩
        2 "main" "gadzit" "participant").1.connections "main").getD [])
        "gadzit" = some ⟨2, "participant"⟩
    ∧ ((((dictGet (ConnectionManager.connect
        ⟨[("main", [("gadzit", ⟨1, "participant"⟩)])]⟩
        2 "main" "gadzit" "participant").1.connections "main").getD []).map
        Prod.fst).count "gadzit" = 1) := by
  have h := connect_single_channel
    ⟨[("main", [("gadzit", ⟨1, "participant"⟩)])]⟩
    2 "main" "gadzit" "participant" (by decide)
  exact ⟨h.2.2.1 ⟨1, "participant"⟩ (by decide), h.2.1, h.1⟩

/-! ## C8: broadcast partial-failure isolation -/

theorem broadcastLoop_spec (sess : List (String × ConnEntry))
    (fails : Nat → Bool) (exclude : Option String) :
    (broadcastLoop sess fails exclude).1
      = (sess.filter (fun p =>
          !(decide (some p.1 = exclude)) && !(fails p.2.ws))).map Prod.fst
    ∧ (broadcastLoop sess fails exclude).2
      = (sess.filter (fun p =>
          !(decide (some p.1 = exclude)) && fails p.2.ws)).map Prod.fst := by
  induction sess with
  | nil => simp [broadcastLoop]
  | cons hd tl ih =>
      obtain ⟨cid, e⟩ := hd
      by_cases hx : some cid = exclude
      · simp [broadcastLoop, hx, ih]
      · cases hf : fails e.ws
        · simp [broadcastLoop, hx, hf, ih]
        · simp [broadcastLoop, hx, hf, ih]

/-- C8: one channel's send failure never blocks the others.  For a
registered session bucket, every entry that is not the excluded client
and whose channel sends successfully receives the message (it appears
in the delivered list) no matter which other channels fail, and every
non-excluded entry whose channel fails is evicted from the registry by
the same broadcast.  The broadcast function is total — a failure is
data (`fails`), not a propagating exception. -/
theorem broadcast_partial_failure_isolation (m : ConnectionManager)
    (session_id : String) (fails : Nat → Bool) (exclude : Option String)
    (sess : List (String × ConnEntry))
    (hs : dictGet m.connections session_id = some sess)
    (hnd : (sess.map Prod.fst).Nodup) :
    (∀ p ∈ sess, some p.1 ≠ exclude → fails p.2.ws = false →
        p.1 ∈ (m.broadcast session_id fails exclude).2)
    ∧ (∀ p ∈ sess, some p.1 ≠ exclude → fails p.2.ws = true →
        dictGet ((dictGet (m.broadcast session_id fails exclude).1.connections
            session_id).getD []) p.1 = none) := by
  have hspec := broadcastLoop_spec sess fails exclude
  constructor
  · intro p hp hx hf
    simp only [ConnectionManager.broadcast, hs, hspec.1]
    exact List.mem_map_of_mem Prod.fst
      (List.mem_filter.mpr ⟨hp, by simp [hx, hf]⟩)
  · intro p hp hx hf
    simp only [ConnectionManager.broadcast, hs, dictGet_dictSet_self,
      Option.getD_some]
    have hdead : p.1 ∈ (broadcastLoop sess fails exclude).2 := by
      rw [hspec.2]
      exact List.mem_map_of_mem Prod.fst
        (List.mem_filter.mpr ⟨hp, by simp [hx, hf]⟩)
    exact dictGet_foldl_dictPop_of_mem _ sess p.1 hnd hdead

/-- C8 witness: with three channels in `main` and channel 2 (phoenix)
failing, gadzit and the screen still receive the broadcast and phoenix
is evicted. -/
theorem broadcast_partial_failure_isolation_witness :
    ("gadzit" ∈ (ConnectionManager.broadcast
        ⟨[("main", [("gadzit", ⟨1, "participant"⟩),
                    ("phoenix", ⟨2, "participant"⟩),
                    ("screen", ⟨3, "screen"⟩)])]⟩
        "main" (fun n => n == 2) none).2)
    ∧ ("screen" ∈ (ConnectionManager.broadcast
        ⟨[("main", [("gadzit", ⟨1, "participant"⟩),
                    ("phoenix", ⟨2, "participant"⟩),
                    ("screen", ⟨3, "screen"⟩)])]⟩
        "main" (fun n => n == 2) none).2)
    ∧ dictGet ((dictGet (ConnectionManager.broadcast
        ⟨[("main", [("gadzit", ⟨1, "participant"⟩),
                    ("phoenix", ⟨2, "participant"⟩),
                    ("screen", ⟨3, "screen"⟩)])]⟩
        "main" (fun n => n == 2) none).1.connections "main").getD [])
        "phoenix" = none := by
  have h := broadcast_partial_failure_isolation
    ⟨[("main", [("gadzit", ⟨1, "participant"⟩),
                ("phoenix", ⟨2, "participant"⟩),
                ("screen", ⟨3, "screen"⟩)])]⟩
    "main" (fun n => n == 2) none
    [("gadzit", ⟨1, "participant"⟩), ("phoenix", ⟨2, "participant"⟩),
     ("screen", ⟨3, "screen"⟩)] (by decide) (by decide)
  refine ⟨?_, ?_, ?_⟩
  · exact h.1 ("gadzit", ⟨1, "participant"⟩) (by decide) (by decide) (by decide)
  · exact h.1 ("screen", ⟨3, "screen"⟩) (by decide) (by decide) (by decide)
  · exact h.2 ("phoenix", ⟨2, "participant"⟩) (by decide) (by decide)
      (by decide)

end Agora
